import Mathlib

/-!
Shallow embedding of `src/src/frontend/_lib/maze.js` (class `Maze`).

Modelling decisions, read off the source:
* Sprite pixel positions are integers: they are initialised with
  `Math.round(...)` and only ever change by `±1` per tick or by another
  `Math.round(...)` in `resetSprite`.
* `cellSize = this.app.view.width / this.grid.length` is a rational.
* The PIXI ticker is a list of registered `animateMotion` closures; one
  frame runs them in registration order, each closure may remove itself.
  A closure captures its move's pixel targets; promise settlement is
  recorded in a log keyed by a per-move id.
* `this.grid` is a matrix of numbers, `0` = path, nonzero = wall
  (`drawMaze` skips cells equal to `0` and pushes every other cell's
  graphics object into `this.walls`).
-/

/-- JavaScript `Math.round`: rounds half toward positive infinity. -/
def jsRound (q : ℚ) : ℤ := ⌊q + 1/2⌋

/-- A maze grid as stored in `this.grid`: `0` = path, nonzero = wall. -/
abbrev Grid := List (List ℕ)

/-- Cell value lookup, `grid[i][j]`, with `0` (path) as out-of-list default. -/
def cellVal (g : Grid) (i j : ℕ) : ℕ := (g.getD i []).getD j 0

/-- The `this.walls` array built by `drawMaze`: the (row, col) index pairs of
all nonzero cells, in row-major order. -/
def wallsOf (g : Grid) : List (ℕ × ℕ) :=
  (List.range g.length).flatMap (fun i =>
    ((List.range (g.getD i []).length).filter (fun j => cellVal g i j ≠ 0)).map
      (fun j => (i, j)))

/-- `wallBounds.contains(px, py)` for the wall at row `w.1`, col `w.2`: the
rendered bounds are the half-open square `[j*c, j*c+c) × [i*c, i*c+c)`. -/
def wallContains (c : ℚ) (w : ℕ × ℕ) (px py : ℚ) : Bool :=
  decide ((w.2 : ℚ) * c ≤ px) && decide (px < (w.2 : ℚ) * c + c) &&
  decide ((w.1 : ℚ) * c ≤ py) && decide (py < (w.1 : ℚ) * c + c)

/-- `Maze.isSpriteOutOfBounds`: true when some wall's bounds contain the
sprite's position, or the containing cell index `(⌊px/c⌋, ⌊py/c⌋)` falls
outside `[0, grid.length - 1]` on either axis. -/
def isSpriteOutOfBounds (g : Grid) (c : ℚ) (px py : ℚ) : Bool :=
  ((wallsOf g).any (fun w => wallContains c w px py)) ||
  (decide (⌊px / c⌋ < 0) || decide (⌊py / c⌋ < 0) ||
   decide ((g.length : ℤ) ≤ ⌊px / c⌋) || decide ((g.length : ℤ) ≤ ⌊py / c⌋))

/-- `Maze.isSpriteAtFinish`: the containing cell satisfies
`x ≥ grid.length - 2 && y ≥ grid.length - 2`. -/
def isSpriteAtFinish (g : Grid) (c : ℚ) (px py : ℚ) : Bool :=
  decide ((g.length : ℤ) - 2 ≤ ⌊px / c⌋) && decide ((g.length : ℤ) - 2 ≤ ⌊py / c⌋)

/-- Outcome of a settled move promise. `reject` in the source is called with
the string `"Out of bounds"`. -/
inductive Settle where
  | resolved : Settle
  | rejected : String → Settle
deriving DecidableEq, Repr

/-- One `animateMotion` closure registered on the ticker: it captures its
move's pixel targets `targetX`/`targetY`; `id` identifies the promise it
settles. -/
structure ActiveMove where
  id : ℕ
  targetX : ℤ
  targetY : ℤ
deriving DecidableEq, Repr

/-- The mutable state of one `Maze` instance (the fields the non-visual
logic reads and writes). `settled` logs promise settlements in order;
`successCount` counts `onSuccess` invocations. -/
structure MazeState where
  grid : Grid
  mazeCode : String
  viewWidth : ℚ
  spriteX : ℤ
  spriteY : ℤ
  spriteCoordX : ℤ
  spriteCoordY : ℤ
  callbacks : List ActiveMove
  settled : List (ℕ × Settle)
  nextId : ℕ
  successCount : ℕ
deriving DecidableEq, Repr

/-- `this.app.view.width / this.grid.length`, recomputed at each use site. -/
def cellSize (s : MazeState) : ℚ := s.viewWidth / (s.grid.length : ℚ)

/-- The `Maze` constructor: sprite coordinates at the entrance `(0, 1)`,
sprite pixel position from `generateSprite`
(`Math.round(coord * cellSize + 2.5)`), no pending callbacks. -/
def mkMaze (g : Grid) (code : String) (w : ℚ) : MazeState :=
  let c := w / (g.length : ℚ)
  { grid := g, mazeCode := code, viewWidth := w,
    spriteX := jsRound (0 * c + 5/2), spriteY := jsRound (1 * c + 5/2),
    spriteCoordX := 0, spriteCoordY := 1,
    callbacks := [], settled := [], nextId := 0, successCount := 0 }

/-- `Maze.moveSprite(x, y)`: computes pixel targets
`Math.round(x * cellSize) + 2`, registers an `animateMotion` closure on the
ticker, and synchronously sets `spriteCoordinates` to `(x, y)`. Returns the
updated state and the new move's promise id. -/
def moveSprite (s : MazeState) (x y : ℤ) : MazeState × ℕ :=
  let c := cellSize s
  let tX := jsRound ((x : ℚ) * c) + 2
  let tY := jsRound ((y : ℚ) * c) + 2
  ({ s with callbacks := s.callbacks ++ [⟨s.nextId, tX, tY⟩],
            spriteCoordX := x, spriteCoordY := y, nextId := s.nextId + 1 },
   s.nextId)

/-- `Maze.moveSpriteX(n)`: horizontal move relative to `spriteCoordinates`. -/
def moveSpriteX (s : MazeState) (n : ℤ) : MazeState × ℕ :=
  moveSprite s (s.spriteCoordX + n) s.spriteCoordY

/-- `Maze.moveSpriteY(n)`: vertical move relative to `spriteCoordinates`. -/
def moveSpriteY (s : MazeState) (n : ℤ) : MazeState × ℕ :=
  moveSprite s s.spriteCoordX (s.spriteCoordY + n)

/-- `Maze.resetSprite`: coordinates back to `(0, 1)`, pixel position set to
`Math.round(0 * cellSize)` / `Math.round(1 * cellSize)`. Nothing else is
touched: registered callbacks stay on the ticker. -/
def resetSprite (s : MazeState) : MazeState :=
  let c := cellSize s
  { s with spriteCoordX := 0, spriteCoordY := 1,
           spriteX := jsRound (0 * c), spriteY := jsRound (1 * c) }

/-- Accumulator for one ticker frame: current sprite position, the callbacks
that stay registered, the settlements produced this frame, and the number of
`onSuccess` calls this frame. -/
structure TickAcc where
  px : ℤ
  py : ℤ
  kept : List ActiveMove
  newSettled : List (ℕ × Settle)
  succ : ℕ
deriving DecidableEq, Repr

/-- One `animateMotion` invocation, exactly as in the source: first the
out-of-bounds check (reject and self-remove on violation); otherwise step
`x` toward `targetX` if unaligned, else step `y` toward `targetY` if
unaligned, else self-remove, fire `onSuccess` when at the finish, and
resolve. -/
def tickStep (g : Grid) (c : ℚ) (acc : TickAcc) (m : ActiveMove) : TickAcc :=
  if isSpriteOutOfBounds g c (acc.px : ℚ) (acc.py : ℚ) then
    { acc with newSettled := acc.newSettled ++ [(m.id, Settle.rejected "Out of bounds")] }
  else if acc.px ≠ m.targetX then
    { acc with px := acc.px + (if acc.px < m.targetX then 1 else -1),
               kept := acc.kept ++ [m] }
  else if acc.py ≠ m.targetY then
    { acc with py := acc.py + (if acc.py < m.targetY then 1 else -1),
               kept := acc.kept ++ [m] }
  else
    { acc with newSettled := acc.newSettled ++ [(m.id, Settle.resolved)],
               succ := acc.succ + (if isSpriteAtFinish g c (acc.px : ℚ) (acc.py : ℚ) then 1 else 0) }

/-- One ticker frame: runs every registered `animateMotion` closure in
registration order, threading the sprite position through. -/
def tick (s : MazeState) : MazeState :=
  let c := cellSize s
  let acc := s.callbacks.foldl (tickStep s.grid c) ⟨s.spriteX, s.spriteY, [], [], 0⟩
  { s with spriteX := acc.px, spriteY := acc.py, callbacks := acc.kept,
           settled := s.settled ++ acc.newSettled,
           successCount := s.successCount + acc.succ }

/-- `runTicks k s`: `k` consecutive ticker frames. -/
def runTicks : ℕ → MazeState → MazeState
  | 0, s => s
  | k + 1, s => runTicks k (tick s)

/-- The cell of `g` containing integer point `(fx, fy)` (col `fx`, row `fy`)
is a wall cell: both indices are in range for the stored matrix and the
stored value is nonzero. -/
def cellIsWall (g : Grid) (fx fy : ℤ) : Bool :=
  decide (0 ≤ fx) && decide (0 ≤ fy) &&
  decide (fy < (g.length : ℤ)) &&
  decide (fx < ((g.getD fy.toNat []).length : ℤ)) &&
  decide (cellVal g fy.toNat fx.toNat ≠ 0)

/-- `isSpriteOutOfBounds` read off a whole `MazeState`, the way `animateMotion`
calls it on `this`. -/
def isOOBState (t : MazeState) : Bool :=
  isSpriteOutOfBounds t.grid (cellSize t) (t.spriteX : ℚ) (t.spriteY : ℚ)

/-- Remaining L1 pixel distance from the sprite position to a move's target. -/
def pixelDist (m : ActiveMove) (px py : ℤ) : ℕ :=
  (px - m.targetX).natAbs + (py - m.targetY).natAbs

/-- A 5×5 grid that is all path cells. -/
def gAllPath : Grid :=
  [[0,0,0,0,0],[0,0,0,0,0],[0,0,0,0,0],[0,0,0,0,0],[0,0,0,0,0]]

/-- A 5×5 grid whose only wall cell is at row 1, col 1, directly right of
the entrance cell (col 0, row 1). -/
def gWall : Grid :=
  [[0,0,0,0,0],[0,1,0,0,0],[0,0,0,0,0],[0,0,0,0,0],[0,0,0,0,0]]

example : jsRound (5/2) = 3 := of_decide_eq_true (by with_unfolding_all rfl)
example : jsRound (25/2) = 13 := of_decide_eq_true (by with_unfolding_all rfl)
example : jsRound (-5/2) = -2 := of_decide_eq_true (by with_unfolding_all rfl)
example : (mkMaze gAllPath "" 25).spriteX = 3 ∧ (mkMaze gAllPath "" 25).spriteY = 8 :=
  of_decide_eq_true (by with_unfolding_all rfl)
example : wallsOf gWall = [(1, 1)] := of_decide_eq_true (by with_unfolding_all rfl)

lemma tick_grid (s : MazeState) : (tick s).grid = s.grid := rfl

lemma tick_mazeCode (s : MazeState) : (tick s).mazeCode = s.mazeCode := rfl

lemma tick_viewWidth (s : MazeState) : (tick s).viewWidth = s.viewWidth := rfl

lemma runTicks_grid : ∀ (k : ℕ) (s : MazeState), (runTicks k s).grid = s.grid
  | 0, _ => rfl
  | k + 1, s => (runTicks_grid k (tick s)).trans (tick_grid s)

lemma runTicks_mazeCode : ∀ (k : ℕ) (s : MazeState), (runTicks k s).mazeCode = s.mazeCode
  | 0, _ => rfl
  | k + 1, s => (runTicks_mazeCode k (tick s)).trans (tick_mazeCode s)

lemma runTicks_viewWidth : ∀ (k : ℕ) (s : MazeState), (runTicks k s).viewWidth = s.viewWidth
  | 0, _ => rfl
  | k + 1, s => (runTicks_viewWidth k (tick s)).trans (tick_viewWidth s)

/-- The state after requesting a move into the wall cell (1, 1) of `gWall`
from the entrance. -/
def sC1 : MazeState := (moveSprite (mkMaze gWall "" 25) 1 1).1

/-- The state after requesting a move from the entrance to the exit-region
cell (3, 3) of the all-path maze. -/
def sC2 : MazeState := (moveSprite (mkMaze gAllPath "" 25) 3 3).1

/-- After the first move of `sC2` has completed (24 ticks), a second move to
the exit-region cell (4, 3). -/
def sC2b : MazeState := (moveSprite (runTicks 24 sC2) 4 3).1

/-- Two move requests issued back to back, the second while the first is
still unsettled. -/
def sC3 : MazeState := (moveSprite (moveSprite (mkMaze gAllPath "" 25) 1 1).1 2 1).1

/-- `resetSprite` called one tick into an in-flight move to (3, 3). -/
def sC4 : MazeState := resetSprite (tick sC2)

/-- C1 counterexample: a move into the wall cell (1, 1) does settle as
rejected with "Out of bounds", but `spriteCoordinates` is NOT left at the
last valid settled cell (0, 1): `moveSprite` already set it to the rejected
target (1, 1) at request time. -/
theorem C1_counterexample :
    (mkMaze gWall "" 25).spriteCoordX = 0 ∧ (mkMaze gWall "" 25).spriteCoordY = 1 ∧
    (runTicks 3 sC1).settled = [(0, Settle.rejected "Out of bounds")] ∧
    (runTicks 3 sC1).spriteCoordX = 1 ∧ (runTicks 3 sC1).spriteCoordY = 1 ∧
    ¬((runTicks 3 sC1).spriteCoordX = 0 ∧ (runTicks 3 sC1).spriteCoordY = 1) :=
  of_decide_eq_true (by with_unfolding_all rfl)

/-- C2 counterexample: the first move completing in the exit region fires
`onSuccess` (count 1), and a second completed move inside the exit region
fires it AGAIN (count 2): the callback is not invoked at most once in
total. -/
theorem C2_counterexample :
    (runTicks 24 sC2).successCount = 1 ∧
    (runTicks 24 sC2).settled = [(0, Settle.resolved)] ∧
    (runTicks 30 sC2b).successCount = 2 ∧
    (runTicks 30 sC2b).settled = [(0, Settle.resolved), (1, Settle.resolved)] ∧
    ¬((runTicks 30 sC2b).successCount ≤ 1) :=
  of_decide_eq_true (by with_unfolding_all rfl)

/-- C3 counterexample: a second `moveSprite` issued while the first move is
unsettled is neither queued nor rejected with a BusyError: both
`animateMotion` callbacks stay registered and, in one and the same ticker
frame, each moves the actor one step toward its own target (the sprite
advances from x = 3 to x = 5 in a single frame). -/
theorem C3_counterexample :
    sC3.callbacks = [⟨0, 7, 7⟩, ⟨1, 12, 7⟩] ∧
    sC3.settled = [] ∧
    sC3.spriteX = 3 ∧
    (tick sC3).spriteX = 5 ∧
    (tick sC3).settled = [] ∧
    (tick sC3).callbacks = [⟨0, 7, 7⟩, ⟨1, 12, 7⟩] :=
  of_decide_eq_true (by with_unfolding_all rfl)

/-- C4 counterexample: `resetSprite` during an in-flight move does restore
the coordinates to the entrance (0, 1), but it does not cancel the move:
the handle stays unsettled (no CancelledError rejection, `settled` is
empty), the callback stays registered, and on the next tick it moves the
sprite away from the entrance again. -/
theorem C4_counterexample :
    sC4.spriteCoordX = 0 ∧ sC4.spriteCoordY = 1 ∧
    sC4.callbacks = [⟨0, 17, 17⟩] ∧
    sC4.settled = [] ∧
    (tick sC4).spriteX = sC4.spriteX + 1 :=
  of_decide_eq_true (by with_unfolding_all rfl)

/-- C3 amended: `moveSprite` enforces no single-flight policy. A second
request issued while the first is unsettled neither queues behind it nor
fails with a BusyError: it just registers a second `animateMotion` callback
with its own captured targets, with no settlement recorded, so both
callbacks act on the actor on subsequent ticker frames. -/
theorem C3_theorem (s : MazeState) (x y xx yy : ℤ) :
    ((moveSprite (moveSprite s x y).1 xx yy).1).callbacks
        = s.callbacks ++
          [⟨s.nextId, jsRound ((x : ℚ) * cellSize s) + 2,
            jsRound ((y : ℚ) * cellSize s) + 2⟩,
           ⟨s.nextId + 1, jsRound ((xx : ℚ) * cellSize s) + 2,
            jsRound ((yy : ℚ) * cellSize s) + 2⟩] ∧
    ((moveSprite (moveSprite s x y).1 xx yy).1).settled = s.settled := by
  simp [moveSprite, cellSize]

/-- C4 amended: `resetSprite` restores `spriteCoordinates` to the entrance
(0, 1) and the pixel position to (0, round(cellSize)), but it does not
reject in-flight handles with a CancelledError: the registered callbacks
and the settlement log are untouched (and there is no state-machine field
at all). -/
theorem C4_theorem (s : MazeState) :
    (resetSprite s).spriteCoordX = 0 ∧ (resetSprite s).spriteCoordY = 1 ∧
    (resetSprite s).spriteX = 0 ∧ (resetSprite s).spriteY = jsRound (cellSize s) ∧
    (resetSprite s).callbacks = s.callbacks ∧
    (resetSprite s).settled = s.settled := by
  refine ⟨rfl, rfl, ?_, ?_, rfl, rfl⟩
  · show jsRound (0 * cellSize s) = 0
    rw [zero_mul]
    unfold jsRound
    rw [zero_add]
    norm_num
  · show jsRound (1 * cellSize s) = jsRound (cellSize s)
    rw [one_mul]

/-- C9: the grid and the maze code are immutable after construction: every
post-construction operation of the embedding (`moveSprite`, `moveSpriteX`,
`moveSpriteY`, `resetSprite`, a ticker frame `tick`, and any number of
frames `runTicks`) leaves the `grid` and `mazeCode` fields unchanged; the
predicates `isSpriteOutOfBounds` and `isSpriteAtFinish` only read the grid
(they are pure functions of it). -/
theorem C9_theorem (s : MazeState) (x y n k : ℤ) (t : ℕ) :
    (moveSprite s x y).1.grid = s.grid ∧ (moveSprite s x y).1.mazeCode = s.mazeCode ∧
    (moveSpriteX s n).1.grid = s.grid ∧ (moveSpriteX s n).1.mazeCode = s.mazeCode ∧
    (moveSpriteY s k).1.grid = s.grid ∧ (moveSpriteY s k).1.mazeCode = s.mazeCode ∧
    (resetSprite s).grid = s.grid ∧ (resetSprite s).mazeCode = s.mazeCode ∧
    (tick s).grid = s.grid ∧ (tick s).mazeCode = s.mazeCode ∧
    (runTicks t s).grid = s.grid ∧ (runTicks t s).mazeCode = s.mazeCode :=
  ⟨rfl, rfl, rfl, rfl, rfl, rfl, rfl, rfl, rfl, rfl,
   runTicks_grid t s, runTicks_mazeCode t s⟩

/-- C10: `moveSprite(x, y)` sets `spriteCoordinates` to the requested
target synchronously at request time — the pixel position is untouched, so
no tick of motion has run, and the update does not depend on how the move
later settles. Consequently `moveSpriteX`/`moveSpriteY` compute their
target from the most recently requested cell, including right after a
still-unsettled request. -/
theorem C10_theorem (s : MazeState) (x y n k : ℤ) :
    (moveSprite s x y).1.spriteCoordX = x ∧ (moveSprite s x y).1.spriteCoordY = y ∧
    (moveSprite s x y).1.spriteX = s.spriteX ∧ (moveSprite s x y).1.spriteY = s.spriteY ∧
    moveSpriteX s n = moveSprite s (s.spriteCoordX + n) s.spriteCoordY ∧
    moveSpriteY s k = moveSprite s s.spriteCoordX (s.spriteCoordY + k) ∧
    moveSpriteX (moveSprite s x y).1 n = moveSprite (moveSprite s x y).1 (x + n) y :=
  ⟨rfl, rfl, rfl, rfl, rfl, rfl, rfl⟩

lemma tick_oob_single (s : MazeState) (m : ActiveMove) (h : s.callbacks = [m])
    (hb : isOOBState s = true) :
    (tick s).spriteX = s.spriteX ∧ (tick s).spriteY = s.spriteY ∧
    (tick s).callbacks = [] ∧
    (tick s).settled = s.settled ++ [(m.id, Settle.rejected "Out of bounds")] ∧
    (tick s).successCount = s.successCount := by
  have hb' : isSpriteOutOfBounds s.grid (cellSize s) (s.spriteX : ℚ) (s.spriteY : ℚ) = true := hb
  simp [tick, h, tickStep, hb']

lemma tick_stepX_single (s : MazeState) (m : ActiveMove) (h : s.callbacks = [m])
    (hb : isOOBState s = false) (hx : s.spriteX ≠ m.targetX) :
    (tick s).spriteX = s.spriteX + (if s.spriteX < m.targetX then 1 else -1) ∧
    (tick s).spriteY = s.spriteY ∧
    (tick s).callbacks = [m] ∧
    (tick s).settled = s.settled ∧
    (tick s).successCount = s.successCount := by
  have hb' : isSpriteOutOfBounds s.grid (cellSize s) (s.spriteX : ℚ) (s.spriteY : ℚ) = false := hb
  simp [tick, h, tickStep, hb', hx]

lemma tick_stepY_single (s : MazeState) (m : ActiveMove) (h : s.callbacks = [m])
    (hb : isOOBState s = false) (hx : s.spriteX = m.targetX) (hy : s.spriteY ≠ m.targetY) :
    (tick s).spriteX = s.spriteX ∧
    (tick s).spriteY = s.spriteY + (if s.spriteY < m.targetY then 1 else -1) ∧
    (tick s).callbacks = [m] ∧
    (tick s).settled = s.settled ∧
    (tick s).successCount = s.successCount := by
  have hb' : isSpriteOutOfBounds s.grid (cellSize s) (s.spriteX : ℚ) (s.spriteY : ℚ) = false := hb
  rw [hx] at hb'
  simp [tick, h, tickStep, hb', hx, hy]

lemma tick_resolve_single (s : MazeState) (m : ActiveMove) (h : s.callbacks = [m])
    (hb : isOOBState s = false) (hx : s.spriteX = m.targetX) (hy : s.spriteY = m.targetY) :
    (tick s).spriteX = s.spriteX ∧ (tick s).spriteY = s.spriteY ∧
    (tick s).callbacks = [] ∧
    (tick s).settled = s.settled ++ [(m.id, Settle.resolved)] ∧
    (tick s).successCount = s.successCount +
      (if isSpriteAtFinish s.grid (cellSize s) (s.spriteX : ℚ) (s.spriteY : ℚ) then 1 else 0) := by
  have hb' : isSpriteOutOfBounds s.grid (cellSize s) (s.spriteX : ℚ) (s.spriteY : ℚ) = false := hb
  rw [hx, hy] at hb'
  simp [tick, h, tickStep, hb', hx, hy]

lemma foldl_reject (g : Grid) (c : ℚ) (ms : List ActiveMove) :
    ∀ acc : TickAcc,
      isSpriteOutOfBounds g c (acc.px : ℚ) (acc.py : ℚ) = true →
      (ms.foldl (tickStep g c) acc).px = acc.px ∧
      (ms.foldl (tickStep g c) acc).py = acc.py ∧
      (ms.foldl (tickStep g c) acc).newSettled
        = acc.newSettled ++ ms.map (fun m => (m.id, Settle.rejected "Out of bounds")) := by
  induction ms with
  | nil => intro acc _; simp
  | cons m ms ih =>
    intro acc hb
    have hstep : tickStep g c acc m
        = { acc with newSettled := acc.newSettled ++ [(m.id, Settle.rejected "Out of bounds")] } := by
      simp [tickStep, hb]
    simp only [List.foldl_cons, hstep, List.map_cons]
    obtain ⟨h1, h2, h3⟩ :=
      ih { acc with newSettled := acc.newSettled ++ [(m.id, Settle.rejected "Out of bounds")] } hb
    refine ⟨by simpa using h1, by simpa using h2, ?_⟩
    rw [h3]
    simp

/-- C1 amended: a move request whose animation drives the sprite out of
bounds or into a wall settles as rejected with "Out of bounds" on the next
tick after the violation, but the actor's discrete cell state is NOT left
at the last valid settled cell: `moveSprite` sets `spriteCoordinates` to
the requested target synchronously at request time, and it stays there. -/
theorem C1_theorem (s : MazeState) (x y : ℤ) (t : MazeState) (m : ActiveMove)
    (hb : isOOBState t = true) (hm : m ∈ t.callbacks) :
    (moveSprite s x y).1.spriteCoordX = x ∧
    (moveSprite s x y).1.spriteCoordY = y ∧
    (m.id, Settle.rejected "Out of bounds") ∈ (tick t).settled := by
  refine ⟨rfl, rfl, ?_⟩
  obtain ⟨-, -, h3⟩ := foldl_reject t.grid (cellSize t) t.callbacks
    ⟨t.spriteX, t.spriteY, [], [], 0⟩ hb
  have hsettled : (tick t).settled
      = t.settled ++ t.callbacks.map (fun m => (m.id, Settle.rejected "Out of bounds")) := by
    simp only [tick]
    rw [h3]
    simp
  rw [hsettled]
  rw [List.mem_append]
  right
  exact List.mem_map.mpr ⟨m, hm, rfl⟩

/-- Witness for C1: concrete run in `gWall` — two ticks after requesting a
move into the wall cell (1, 1) the sprite stands inside the wall's bounds,
and the theorem applies: the coordinates were set to (1, 1) at request time
and the handle is rejected with "Out of bounds" on the next tick. -/
theorem C1_witness :
    (moveSprite (mkMaze gWall "" 25) 1 1).1.spriteCoordX = 1 ∧
    (moveSprite (mkMaze gWall "" 25) 1 1).1.spriteCoordY = 1 ∧
    ((0 : ℕ), Settle.rejected "Out of bounds") ∈ (tick (runTicks 2 sC1)).settled :=
  C1_theorem (mkMaze gWall "" 25) 1 1 (runTicks 2 sC1) ⟨0, 7, 7⟩
    (of_decide_eq_true (by with_unfolding_all rfl))
    (of_decide_eq_true (by with_unfolding_all rfl))

/-- C2 amended: `onSuccess` fires on EVERY move that completes with the
sprite at the finish, not at most once in total: the completion tick
increments the success-callback count by one regardless of how many times
the callback has already fired, and resolves the handle. -/
theorem C2_theorem (t : MazeState) (m : ActiveMove) (h : t.callbacks = [m])
    (hb : isOOBState t = false) (hx : t.spriteX = m.targetX) (hy : t.spriteY = m.targetY)
    (hfin : isSpriteAtFinish t.grid (cellSize t) (t.spriteX : ℚ) (t.spriteY : ℚ) = true) :
    (tick t).successCount = t.successCount + 1 ∧
    (m.id, Settle.resolved) ∈ (tick t).settled := by
  obtain ⟨-, -, -, h4, h5⟩ := tick_resolve_single t m h hb hx hy
  rw [hfin] at h5
  refine ⟨by simpa using h5, ?_⟩
  rw [h4]
  simp

/-- Witness for C2: after 23 ticks of the move to the exit-region cell
(3, 3) the sprite is aligned with its target at the finish; the next tick
fires `onSuccess` (already-arbitrary count incremented by one) and resolves
the handle. -/
theorem C2_witness :
    (tick (runTicks 23 sC2)).successCount = (runTicks 23 sC2).successCount + 1 ∧
    ((0 : ℕ), Settle.resolved) ∈ (tick (runTicks 23 sC2)).settled :=
  C2_theorem (runTicks 23 sC2) ⟨0, 17, 17⟩
    (of_decide_eq_true (by with_unfolding_all rfl))
    (of_decide_eq_true (by with_unfolding_all rfl))
    (of_decide_eq_true (by with_unfolding_all rfl))
    (of_decide_eq_true (by with_unfolding_all rfl))
    (of_decide_eq_true (by with_unfolding_all rfl))

/-- C8: with one move in flight, each ticker frame first runs the
collision/bounds check (on violation it rejects without moving), otherwise
it steps the x axis by one unit toward the target whenever x is not yet
aligned — leaving y untouched — and steps y only once x is fully aligned. -/
theorem C8_theorem (s : MazeState) (m : ActiveMove) (h : s.callbacks = [m]) :
    (isOOBState s = true →
      (tick s).spriteX = s.spriteX ∧ (tick s).spriteY = s.spriteY ∧
      (tick s).settled = s.settled ++ [(m.id, Settle.rejected "Out of bounds")]) ∧
    (isOOBState s = false → s.spriteX ≠ m.targetX →
      (tick s).spriteX = s.spriteX + (if s.spriteX < m.targetX then 1 else -1) ∧
      (tick s).spriteY = s.spriteY) ∧
    (isOOBState s = false → s.spriteX = m.targetX → s.spriteY ≠ m.targetY →
      (tick s).spriteX = s.spriteX ∧
      (tick s).spriteY = s.spriteY + (if s.spriteY < m.targetY then 1 else -1)) := by
  refine ⟨fun hb => ?_, fun hb hx => ?_, fun hb hx hy => ?_⟩
  · obtain ⟨h1, h2, -, h4, -⟩ := tick_oob_single s m h hb
    exact ⟨h1, h2, h4⟩
  · obtain ⟨h1, h2, -, -, -⟩ := tick_stepX_single s m h hb hx
    exact ⟨h1, h2⟩
  · obtain ⟨h1, h2, -, -, -⟩ := tick_stepY_single s m h hb hx hy
    exact ⟨h1, h2⟩

/-- Witness for C8: the single in-flight move of `sC2` (target (17, 17),
sprite at (3, 8), in bounds, x unaligned) steps x from 3 to 4 and leaves
y at 8 on the first frame. -/
theorem C8_witness :
    (isOOBState sC2 = true →
      (tick sC2).spriteX = sC2.spriteX ∧ (tick sC2).spriteY = sC2.spriteY ∧
      (tick sC2).settled = sC2.settled ++ [((0 : ℕ), Settle.rejected "Out of bounds")]) ∧
    (isOOBState sC2 = false → sC2.spriteX ≠ (17 : ℤ) →
      (tick sC2).spriteX = sC2.spriteX + (if sC2.spriteX < (17 : ℤ) then 1 else -1) ∧
      (tick sC2).spriteY = sC2.spriteY) ∧
    (isOOBState sC2 = false → sC2.spriteX = (17 : ℤ) → sC2.spriteY ≠ (17 : ℤ) →
      (tick sC2).spriteX = sC2.spriteX ∧
      (tick sC2).spriteY = sC2.spriteY + (if sC2.spriteY < (17 : ℤ) then 1 else -1)) :=
  C8_theorem sC2 ⟨0, 17, 17⟩ (of_decide_eq_true (by with_unfolding_all rfl))

lemma floor_div_char (c : ℚ) (hc : 0 < c) (a : ℤ) (q : ℚ) :
    ⌊q / c⌋ = a ↔ ((a : ℚ) * c ≤ q ∧ q < (a : ℚ) * c + c) := by
  rw [Int.floor_eq_iff, le_div_iff₀ hc, div_lt_iff₀ hc, add_mul, one_mul]

lemma wallContains_char (c : ℚ) (hc : 0 < c) (i j : ℕ) (px py : ℚ) :
    wallContains c (i, j) px py = true ↔ (⌊px / c⌋ = (j : ℤ) ∧ ⌊py / c⌋ = (i : ℤ)) := by
  rw [floor_div_char c hc (j : ℤ) px, floor_div_char c hc (i : ℤ) py]
  simp only [wallContains, Bool.and_eq_true, decide_eq_true_eq]
  push_cast
  tauto

lemma mem_wallsOf (g : Grid) (i j : ℕ) :
    (i, j) ∈ wallsOf g ↔ i < g.length ∧ j < (g.getD i []).length ∧ cellVal g i j ≠ 0 := by
  simp only [wallsOf, List.mem_flatMap, List.mem_map, List.mem_filter, List.mem_range,
    Prod.mk.injEq]
  constructor
  · rintro ⟨a, ha, b, ⟨hb, hv⟩, rfl, rfl⟩
    exact ⟨ha, hb, by simpa using hv⟩
  · rintro ⟨h1, h2, h3⟩
    exact ⟨i, h1, j, ⟨h2, by simpa using h3⟩, rfl, rfl⟩

lemma cellIsWall_char (g : Grid) (fx fy : ℤ) :
    cellIsWall g fx fy = true ↔
      0 ≤ fx ∧ 0 ≤ fy ∧ fy < (g.length : ℤ) ∧
      fx < ((g.getD fy.toNat []).length : ℤ) ∧ cellVal g fy.toNat fx.toNat ≠ 0 := by
  simp only [cellIsWall, Bool.and_eq_true, decide_eq_true_eq]
  tauto

lemma anyWall_char (g : Grid) (c px py : ℚ) (hc : 0 < c) :
    ((wallsOf g).any (fun w => wallContains c w px py) = true) ↔
      cellIsWall g ⌊px / c⌋ ⌊py / c⌋ = true := by
  rw [List.any_eq_true, cellIsWall_char]
  constructor
  · rintro ⟨⟨i, j⟩, hmem, hcon⟩
    rw [mem_wallsOf] at hmem
    rw [wallContains_char c hc] at hcon
    obtain ⟨h1, h2, h3⟩ := hmem
    obtain ⟨hj, hi⟩ := hcon
    rw [hj, hi]
    refine ⟨Int.natCast_nonneg j, Int.natCast_nonneg i, ?_, ?_, ?_⟩
    · exact_mod_cast h1
    · simpa using (show (j : ℤ) < ((g.getD i []).length : ℤ) by exact_mod_cast h2)
    · simpa using h3
  · rintro ⟨hx0, hy0, hylen, hxlen, hval⟩
    refine ⟨(⌊py / c⌋.toNat, ⌊px / c⌋.toNat), ?_, ?_⟩
    · rw [mem_wallsOf]
      refine ⟨?_, ?_, hval⟩
      · omega
      · omega
    · rw [wallContains_char c hc]
      rw [Int.toNat_of_nonneg hx0, Int.toNat_of_nonneg hy0]
      exact ⟨rfl, rfl⟩

/-- C5: for every grid, every positive cell size and every continuous
position, `isSpriteOutOfBounds` returns true if and only if the cell
containing that position — column `⌊px/c⌋`, row `⌊py/c⌋` — is a wall cell
of the grid, or the containing cell's column or row lies outside
`[0, grid.length - 1]`. -/
theorem C5_theorem (g : Grid) (c px py : ℚ) (hc : 0 < c) :
    isSpriteOutOfBounds g c px py = true ↔
      (cellIsWall g ⌊px / c⌋ ⌊py / c⌋ = true ∨
       ⌊px / c⌋ < 0 ∨ ⌊py / c⌋ < 0 ∨
       (g.length : ℤ) ≤ ⌊px / c⌋ ∨ (g.length : ℤ) ≤ ⌊py / c⌋) := by
  simp only [isSpriteOutOfBounds, Bool.or_eq_true, decide_eq_true_eq]
  rw [anyWall_char g c px py hc]
  tauto

/-- Witness for C5: in `gWall` at cell size 5, position (5, 8) lies in the
wall cell (col 1, row 1); the equivalence holds there. -/
theorem C5_witness :
    isSpriteOutOfBounds gWall 5 5 8 = true ↔
      (cellIsWall gWall ⌊(5 : ℚ) / 5⌋ ⌊(8 : ℚ) / 5⌋ = true ∨
       ⌊(5 : ℚ) / 5⌋ < 0 ∨ ⌊(8 : ℚ) / 5⌋ < 0 ∨
       (gWall.length : ℤ) ≤ ⌊(5 : ℚ) / 5⌋ ∨ (gWall.length : ℤ) ≤ ⌊(8 : ℚ) / 5⌋) :=
  C5_theorem gWall 5 5 8 (by norm_num)

/-- C6: for every grid, every positive cell size and every continuous
position, `isSpriteAtFinish` returns true if and only if the containing
cell satisfies col ≥ n-2 and row ≥ n-2 — equivalently, the position has
crossed the pixel threshold `(n-2) * cellSize` on both axes. -/
theorem C6_theorem (g : Grid) (c px py : ℚ) (hc : 0 < c) :
    isSpriteAtFinish g c px py = true ↔
      (((g.length : ℚ) - 2) * c ≤ px ∧ ((g.length : ℚ) - 2) * c ≤ py) := by
  simp only [isSpriteAtFinish, Bool.and_eq_true, decide_eq_true_eq, Int.le_floor,
    le_div_iff₀ hc]
  push_cast
  tauto

/-- Witness for C6: in the 5×5 all-path grid at cell size 5, position
(17, 16) lies in cell (3, 3), which is in the exit region; the equivalence
holds there. -/
theorem C6_witness :
    isSpriteAtFinish gAllPath 5 17 16 = true ↔
      (((gAllPath.length : ℚ) - 2) * 5 ≤ 17 ∧ ((gAllPath.length : ℚ) - 2) * 5 ≤ 16) :=
  C6_theorem gAllPath 5 17 16 (by norm_num)

/-- A move in flight on its own, never blocked along the way, keeps exactly
one callback registered, loses exactly one unit of L1 pixel distance per
tick, and resolves on the tick after the distance reaches zero. -/
lemma singleMove_run (d : ℕ) : ∀ (s : MazeState) (m : ActiveMove),
    s.callbacks = [m] →
    pixelDist m s.spriteX s.spriteY = d →
    (∀ k, k < d + 1 → isOOBState (runTicks k s) = false) →
    (∀ k, k ≤ d →
        (runTicks k s).callbacks = [m] ∧
        pixelDist m (runTicks k s).spriteX (runTicks k s).spriteY = d - k ∧
        (runTicks k s).settled = s.settled) ∧
    (runTicks (d + 1) s).settled = s.settled ++ [(m.id, Settle.resolved)] := by
  induction d with
  | zero =>
    intro s m h hd hsafe
    have hb : isOOBState s = false := hsafe 0 (by omega)
    have hx : s.spriteX = m.targetX := by
      simp only [pixelDist] at hd; omega
    have hy : s.spriteY = m.targetY := by
      simp only [pixelDist] at hd; omega
    refine ⟨?_, ?_⟩
    · intro k hk
      have hk0 : k = 0 := by omega
      subst hk0
      exact ⟨h, hd, rfl⟩
    · show (tick s).settled = s.settled ++ [(m.id, Settle.resolved)]
      exact (tick_resolve_single s m h hb hx hy).2.2.2.1
  | succ d ih =>
    intro s m h hd hsafe
    have hb : isOOBState s = false := hsafe 0 (by omega)
    have hstep : (tick s).callbacks = [m] ∧ (tick s).settled = s.settled ∧
        pixelDist m (tick s).spriteX (tick s).spriteY = d := by
      by_cases hx : s.spriteX = m.targetX
      · have hy : s.spriteY ≠ m.targetY := by
          intro hy
          simp only [pixelDist, hx, hy] at hd
          omega
        obtain ⟨h1, h2, h3, h4, -⟩ := tick_stepY_single s m h hb hx hy
        refine ⟨h3, h4, ?_⟩
        rw [h1, h2]
        simp only [pixelDist, hx] at hd ⊢
        split_ifs with hlt <;> omega
      · obtain ⟨h1, h2, h3, h4, -⟩ := tick_stepX_single s m h hb hx
        refine ⟨h3, h4, ?_⟩
        rw [h1, h2]
        simp only [pixelDist] at hd ⊢
        split_ifs with hlt <;> omega
    have hsafe' : ∀ k, k < d + 1 → isOOBState (runTicks k (tick s)) = false :=
      fun k hk => hsafe (k + 1) (by omega)
    obtain ⟨hinv, hfin⟩ := ih (tick s) m hstep.1 hstep.2.2 hsafe'
    refine ⟨?_, ?_⟩
    · intro k hk
      cases k with
      | zero => exact ⟨h, hd, rfl⟩
      | succ kk =>
        obtain ⟨g1, g2, g3⟩ := hinv kk (by omega)
        refine ⟨g1, ?_, g3.trans hstep.2.1⟩
        show pixelDist m (runTicks kk (tick s)).spriteX (runTicks kk (tick s)).spriteY
          = d + 1 - (kk + 1)
        rw [g2]
        omega
    · show (runTicks (d + 1) (tick s)).settled = s.settled ++ [(m.id, Settle.resolved)]
      rw [hfin, hstep.2.1]

lemma pixelDist_eq_zero (m : ActiveMove) (px py : ℤ) :
    pixelDist m px py = 0 → px = m.targetX ∧ py = m.targetY := by
  simp only [pixelDist]
  omega

/-- C7: a single in-flight move that is never blocked advances the sprite
by exactly one pixel unit per tick (its L1 distance to the target drops by
exactly one each tick, so it never overshoots on either axis), reaches the
target exactly after `pixelDist` ticks, and the handle resolves on the
following tick. -/
theorem C7_theorem (s : MazeState) (m : ActiveMove)
    (h : s.callbacks = [m])
    (hsafe : ∀ k, k < pixelDist m s.spriteX s.spriteY + 1 →
        isOOBState (runTicks k s) = false) :
    (∀ k, k < pixelDist m s.spriteX s.spriteY →
        pixelDist m (runTicks (k + 1) s).spriteX (runTicks (k + 1) s).spriteY + 1
          = pixelDist m (runTicks k s).spriteX (runTicks k s).spriteY) ∧
    (runTicks (pixelDist m s.spriteX s.spriteY) s).spriteX = m.targetX ∧
    (runTicks (pixelDist m s.spriteX s.spriteY) s).spriteY = m.targetY ∧
    (runTicks (pixelDist m s.spriteX s.spriteY + 1) s).settled
      = s.settled ++ [(m.id, Settle.resolved)] := by
  obtain ⟨hinv, hfin⟩ :=
    singleMove_run (pixelDist m s.spriteX s.spriteY) s m h rfl hsafe
  have hend := (hinv (pixelDist m s.spriteX s.spriteY) (le_refl _)).2.1
  simp only [Nat.sub_self] at hend
  have hend' := pixelDist_eq_zero m _ _ hend
  refine ⟨?_, hend'.1, hend'.2, hfin⟩
  intro k hk
  have h1 := (hinv k (by omega)).2.1
  have h2 := (hinv (k + 1) (by omega)).2.1
  omega

/-- A single short move used to witness C7: from the entrance state of the
all-path maze, a move to cell (0, 1) — pixel target (2, 7) from pixel
position (3, 8), L1 distance 2. -/
def sC7 : MazeState := (moveSprite (mkMaze gAllPath "" 25) 0 1).1

/-- Witness for C7: the concrete two-pixel move of `sC7` loses one unit of
distance per tick, stands on its target after 2 ticks, and resolves on
tick 3. -/
theorem C7_witness :
    (∀ k, k < pixelDist ⟨0, 2, 7⟩ sC7.spriteX sC7.spriteY →
        pixelDist ⟨0, 2, 7⟩ (runTicks (k + 1) sC7).spriteX (runTicks (k + 1) sC7).spriteY + 1
          = pixelDist ⟨0, 2, 7⟩ (runTicks k sC7).spriteX (runTicks k sC7).spriteY) ∧
    (runTicks (pixelDist ⟨0, 2, 7⟩ sC7.spriteX sC7.spriteY) sC7).spriteX = 2 ∧
    (runTicks (pixelDist ⟨0, 2, 7⟩ sC7.spriteX sC7.spriteY) sC7).spriteY = 7 ∧
    (runTicks (pixelDist ⟨0, 2, 7⟩ sC7.spriteX sC7.spriteY + 1) sC7).settled
      = sC7.settled ++ [((0 : ℕ), Settle.resolved)] :=
  C7_theorem sC7 ⟨0, 2, 7⟩
    (of_decide_eq_true (by with_unfolding_all rfl))
    (of_decide_eq_true (by with_unfolding_all rfl))
